import Mathlib

/-!
Verification of the LearnMate chat-relay backend.

The repository contains two variants of the same relay:
* `src/api/chat.js` (and its CommonJS twin at the top of `src/unnamed/part_001`):
  a serverless function `handler` that validates the method and message,
  exchanges the API key for an IAM token, calls the scoring endpoint, and
  returns the upstream body verbatim on success; any thrown error becomes a
  generic 500.
* the Express server in `src/unnamed/part_001` (`server.js`), whose
  `app.post` route for `/api/chat` additionally checks configuration,
  normalises the watsonx response into a fixed envelope, and maps axios-style
  errors to distinct responses.

The embedding below models JavaScript runtime values (`JsVal`), truthiness,
property access (including the TypeError thrown on `null`/`undefined`), the
specific regex replace and `trim` used by the Express normaliser, and both
handlers as pure functions of the inbound request together with mocked
outcomes for the two outbound axios calls.  Each handler also returns the
trace of outbound calls it performed, so that claims of the form "the
inference call is never attempted" are statable.
-/

namespace LearnMate

/-- JavaScript runtime values, as far as the relay handlers inspect them.
Numbers are rationals (the only non-integer in the pipeline is the fixed
temperature 0.7); NaN and engine-level details are not reachable here. -/
inductive JsVal : Type where
  | vstr : List Char → JsVal
  | vnum : Rat → JsVal
  | vbool : Bool → JsVal
  | vnull : JsVal
  | vundefined : JsVal
  | varr : List JsVal → JsVal
  | vobj : List (String × JsVal) → JsVal

/-- First binding of a key in an object literal list. Absent keys read as
JavaScript `undefined`. -/
def getField : List (String × JsVal) → String → JsVal
  | [], _ => .vundefined
  | (k, v) :: rest, key => if k = key then v else getField rest key

/-- Property access `v.key` on a value that is not null or undefined:
objects look the key up, primitives have none of the keys used here. -/
def jsGet (v : JsVal) (key : String) : JsVal :=
  match v with
  | .vobj fields => getField fields key
  | _ => .vundefined

/-- Property access `v.key` including the TypeError JavaScript throws when
`v` is `null` or `undefined`; the error value is the message string. -/
def jsGetThrow (v : JsVal) (key : String) : Except (List Char) JsVal :=
  match v with
  | .vnull => .error (("Cannot read properties of null (reading " ++ key ++ ")").toList)
  | .vundefined => .error (("Cannot read properties of undefined (reading " ++ key ++ ")").toList)
  | _ => .ok (jsGet v key)

/-- JavaScript truthiness: empty string, 0, false, null and undefined are
falsy; every object and array is truthy. -/
def truthy : JsVal → Bool
  | .vstr s => !s.isEmpty
  | .vnum n => n ≠ 0
  | .vbool b => b
  | .vnull => false
  | .vundefined => false
  | .varr _ => true
  | .vobj _ => true

/-- The `.length` read in `data.results.length`: arrays and strings report
their length, objects may carry an own `length` field, other primitives
give `undefined`. -/
def jsLength : JsVal → JsVal
  | .varr xs => .vnum (xs.length : Rat)
  | .vstr s => .vnum (s.length : Rat)
  | .vobj fields => getField fields "length"
  | _ => .vundefined

/-- The comparison `x > 0` as the code applies it to a `.length` value.
Booleans coerce to 0/1, `undefined` and `null` compare false, and a
digit-only string parses as a decimal number; richer ToNumber forms (signs,
exponents, padding) cannot be produced by a length property here. -/
def jsGtZero : JsVal → Bool
  | .vnum n => decide (0 < n)
  | .vbool b => b
  | .vstr s => (!s.isEmpty) && s.all Char.isDigit && s.any (fun c => c ≠ '0')
  | _ => false

/-- Index access `v[0]` on a value already known to be truthy (the code
guards it with `data.results && ...`). -/
def jsIndexZero : JsVal → JsVal
  | .varr [] => .vundefined
  | .varr (x :: _) => x
  | .vstr [] => .vundefined
  | .vstr (c :: _) => .vstr [c]
  | .vobj fields => getField fields "0"
  | _ => .vundefined

/-- String conversion for a rational, as used by template literals.  Every
value that actually reaches a template literal in this pipeline is an
integer; the non-integer branch (never observable — the only non-integer is
the temperature inside a JSON payload) is rendered as num/den. -/
def jsNumToString (q : Rat) : List Char :=
  if q.den = 1 then (toString q.num).toList
  else (toString q.num).toList ++ "/".toList ++ (toString q.den).toList

mutual

/-- JavaScript ToString as applied by the template literals in the relay
(`Human: ${userMessage}...`, `apikey=${IBM_API_KEY}`). -/
def jsToString : JsVal → List Char
  | .vstr s => s
  | .vnum q => jsNumToString q
  | .vbool b => (if b then "true" else "false").toList
  | .vnull => "null".toList
  | .vundefined => "undefined".toList
  | .varr xs => joinArray xs
  | .vobj _ => "[object Object]".toList

/-- Array.prototype.toString is join with commas; null and undefined
elements render as the empty string. -/
def joinArray : List JsVal → List Char
  | [] => []
  | x :: xs =>
    (match x with
     | .vnull => []
     | .vundefined => []
     | v => jsToString v) ++
    (match xs with
     | [] => []
     | _ :: _ => ',' :: joinArray xs)

end

/-! ### The Express normaliser: regex strip and trim -/

/-- JavaScript WhiteSpace and LineTerminator code points, the set matched by
the regex class for whitespace and removed by String.prototype.trim. -/
def isJsSpace (c : Char) : Bool :=
  c = ' ' || c = '\t' || c = '\n' || c = '\r' ||
  c = Char.ofNat 11 || c = Char.ofNat 12 ||
  c = Char.ofNat 0xa0 || c = Char.ofNat 0x1680 ||
  (0x2000 ≤ c.toNat && c.toNat ≤ 0x200a) ||
  c = Char.ofNat 0x2028 || c = Char.ofNat 0x2029 ||
  c = Char.ofNat 0x202f || c = Char.ofNat 0x205f || c = Char.ofNat 0x3000 ||
  c = Char.ofNat 0xfeff

/-- JavaScript LineTerminator code points: without the dot-all flag the
regex dot does not match these. -/
def isLineTerminator (c : Char) : Bool :=
  c = '\n' || c = '\r' || c = Char.ofNat 0x2028 || c = Char.ofNat 0x2029

/-- String.prototype.trim. -/
def jsTrim (s : List Char) : List Char :=
  ((s.dropWhile isJsSpace).reverse.dropWhile isJsSpace).reverse

/-- Lazy search for the literal "Assistant:" where the gap consumed so far
must consist of regex-dot characters (no line terminators): the semantics
of the lazy fragment of the replace pattern in server.js.  Returns the tail
after the literal when the whole pattern can match. -/
def findAssistantTail : List Char → Option (List Char)
  | [] => none
  | c :: cs =>
    if ("Assistant:".toList).isPrefixOf (c :: cs) then
      some ((c :: cs).drop ("Assistant:".toList).length)
    else if isLineTerminator c then none
    else findAssistantTail cs

/-- The replace call in server.js: replace the first match of the anchored
pattern (the literal Human-colon, a lazy dot-star, the literal
Assistant-colon, then greedy whitespace) by the empty string; if the
pattern does not match, the string is unchanged.  Because the pattern has
no dot-all flag, the lazy gap cannot cross a line terminator. -/
def stripEcho (s : List Char) : List Char :=
  if ("Human:".toList).isPrefixOf s then
    match findAssistantTail (s.drop ("Human:".toList).length) with
    | some rest => rest.dropWhile isJsSpace
    | none => s
  else s

/-! ### Fixed strings of the relay (assembled around the apostrophe code
point so the file holds no apostrophe inside a string literal) -/

/-- The apostrophe character, U+0027. -/
def apoChar : Char := Char.ofNat 39

/-- The fallback content from server.js, verbatim: it begins with the words
I am sorry (contracted), then: I could not generate a response. Please try
again. -/
def chatFallback : List Char :=
  "I".toList ++ [apoChar] ++ "m sorry, I couldn".toList ++ [apoChar] ++
    "t generate a response. Please try again.".toList

/-- The fixed system preamble appended after the Assistant marker in the
watsonx input template of server.js. -/
def assistantPreamble : List Char :=
  "I".toList ++ [apoChar] ++ "m LearnMate, your AI learning coach. I".toList ++ [apoChar] ++
    "m here to help you with educational planning, finding resources, and answering questions about learning and development.".toList

/-- The template literal building the watsonx `input` field from the user
message. -/
def watsonxInput (userMessage : JsVal) : List Char :=
  "Human: ".toList ++ jsToString userMessage ++ "\n\nAssistant: ".toList ++ assistantPreamble

/-- The form-encoded body of the IAM token exchange, with the API key
interpolated by a template literal (an absent key renders as the string
undefined). -/
def iamRequestBody (apiKey : JsVal) : List Char :=
  "grant_type=urn:ibm:params:oauth:grant-type:apikey&apikey=".toList ++ jsToString apiKey

/-! ### Payloads and response bodies -/

/-- The fixed decoding parameters of the Express watsonx payload. -/
def watsonxParameters : JsVal :=
  .vobj [("decoding_method", .vstr "greedy".toList),
         ("max_new_tokens", .vnum 500),
         ("temperature", .vnum (0.7 : Rat)),
         ("stop_sequences", .varr [.vstr "Human:".toList, .vstr "\n\nHuman:".toList])]

/-- The inference payload built by the Express route for /api/chat. -/
def watsonxPayload (projectId userMessage : JsVal) : JsVal :=
  .vobj [("input", .vstr (watsonxInput userMessage)),
         ("parameters", watsonxParameters),
         ("model_id", .vstr "ibm/granite-3-3-8b-instruct".toList),
         ("project_id", projectId)]

/-- The inference payload built by the serverless handler (api/chat.js):
the user message is embedded unchanged as messages[0].content. -/
def serverlessPayload (projectId userMessage : JsVal) : JsVal :=
  .vobj [("project_id", projectId),
         ("messages", .varr [.vobj [("content", userMessage), ("role", .vstr "user".toList)]])]

/-- Body of the 400 response for a falsy message. -/
def msgEmptyBody : JsVal := .vobj [("error", .vstr "Message cannot be empty.".toList)]

/-- Body of the 405 response of the serverless handler. -/
def methodNotAllowedBody : JsVal := .vobj [("error", .vstr "Method Not Allowed".toList)]

/-- Generic 500 body of the serverless handler for any caught error. -/
def internalErrorBody : JsVal :=
  .vobj [("error", .vstr "An internal server error occurred.".toList)]

/-- Express 500 body when IBM_API_KEY is falsy. -/
def apiKeyMissingBody : JsVal :=
  .vobj [("error", .vstr "Server configuration error: API key missing".toList)]

/-- Express 500 body when PROJECT_ID is falsy. -/
def projectIdMissingBody : JsVal :=
  .vobj [("error", .vstr "Server configuration error: Project ID missing. Please add PROJECT_ID to your .env file".toList)]

/-- Express error body when a caught error carries an upstream response:
the upstream diagnostic data and status are attached. -/
def upstreamErrorBody (status : Nat) (data : JsVal) : JsVal :=
  .vobj [("error", .vstr "Failed to get response from AI".toList),
         ("details", data),
         ("status", .vnum (status : Rat))]

/-- Express 500 body when the request was sent but no response arrived. -/
def connectivityBody : JsVal :=
  .vobj [("error", .vstr "Connection timeout - unable to reach IBM Watsonx.ai service".toList),
         ("suggestion", .vstr "Please check your internet connection and try again".toList)]

/-- Express 500 body when the request could not be set up at all; the
thrown message is attached as details. -/
def setupErrorBody (msg : List Char) : JsVal :=
  .vobj [("error", .vstr "Failed to set up request to AI service".toList),
         ("details", .vstr msg)]

/-- The canonical envelope server.js builds around the normalised content. -/
def mkEnvelope (content : List Char) : JsVal :=
  .vobj [("choices", .varr [
    .vobj [("index", .vnum 0),
           ("message", .vobj [("content", .vstr content),
                              ("role", .vstr "assistant".toList)])]])]

/-! ### Mocked outbound calls and the two handlers -/

/-- Outcome of one axios.post call, as the code distinguishes them: a 2xx
resolution carrying response.data, a rejection whose error has a response
(upstream answered non-2xx), a rejection with a request but no response
(network failure or timeout), or a rejection with neither (setup error),
carrying only a message. -/
inductive AxiosOutcome : Type where
  | success : JsVal → AxiosOutcome
  | httpError : Nat → JsVal → AxiosOutcome
  | noResponse : AxiosOutcome
  | setupError : List Char → AxiosOutcome

/-- Axios resolves only on 2xx statuses (default validateStatus), so an
error response always carries a status outside the 2xx range. -/
def AxiosWf : AxiosOutcome → Prop
  | .httpError st _ => st < 200 ∨ 300 ≤ st
  | _ => True

/-- One outbound network call performed by a handler, with the request body
or payload it sent. -/
inductive Call : Type where
  | iam : List Char → Call
  | inference : JsVal → Call

/-- An HTTP response of a handler: status code and JSON body. -/
structure HttpResponse where
  status : Nat
  body : JsVal

/-- Static configuration read from the environment: each value is a string
when set and undefined when absent. -/
structure Config where
  apiKey : JsVal
  projectId : JsVal

/-- Errors thrown inside the Express try block, as the catch block
discriminates them: an axios error with a response, an axios error with a
request but no response, or a plain error with only a message (for example
a TypeError from the normalisation code). -/
inductive ThrownError : Type where
  | withResponse : Nat → JsVal → ThrownError
  | withRequest : ThrownError
  | plain : List Char → ThrownError

/-- The catch block of the Express /api/chat route. -/
def catchChat : ThrownError → HttpResponse
  | .withResponse st data => { status := st, body := upstreamErrorBody st data }
  | .withRequest => { status := 500, body := connectivityBody }
  | .plain msg => { status := 500, body := setupErrorBody msg }

/-- The response-text extraction block of the Express route: probe
data.results, take results[0].generated_text, run the replace and trim.
The error side is a thrown TypeError (property access on null or
undefined, or calling replace on a non-string). -/
def extractResponseText (data : JsVal) : Except (List Char) (List Char) :=
  let results := jsGet data "results"
  if truthy results && jsGtZero (jsLength results) then
    match jsGetThrow (jsIndexZero results) "generated_text" with
    | .error e => .error e
    | .ok (.vstr s) => .ok (jsTrim (stripEcho s))
    | .ok .vundefined => .error "Cannot read properties of undefined (reading replace)".toList
    | .ok .vnull => .error "Cannot read properties of null (reading replace)".toList
    | .ok _ => .error "responseText.replace is not a function".toList
  else .ok []

/-- The content that ends up in the envelope: the extracted text, or the
fallback when that text is the empty string. -/
def normalizedContent (data : JsVal) : Except (List Char) (List Char) :=
  match extractResponseText data with
  | .error e => .error e
  | .ok txt => .ok (if txt = [] then chatFallback else txt)

/-- The inference stage of the Express route: build the watsonx payload,
perform the call, normalise on success; any failure reaches the catch
block. -/
def invokeInference (cfg : Config) (userMessage : JsVal) (infOutcome : AxiosOutcome) :
    HttpResponse × List Call :=
  let calls := [Call.iam (iamRequestBody cfg.apiKey),
                Call.inference (watsonxPayload cfg.projectId userMessage)]
  match infOutcome with
  | .success data =>
    match normalizedContent data with
    | .ok content => ({ status := 200, body := mkEnvelope content }, calls)
    | .error e => (catchChat (.plain e), calls)
  | .httpError st d => (catchChat (.withResponse st d), calls)
  | .noResponse => (catchChat .withRequest, calls)
  | .setupError m => (catchChat (.plain m), calls)

/-- Token acquisition and everything after it in the Express route:
getIAMToken rethrows its axios error, so a failed exchange reaches the
catch block directly and the inference call is never started; on success
the token is read off response.data (throwing if data is null or
undefined) and the inference stage runs. -/
def acquireAndInvoke (cfg : Config) (userMessage : JsVal)
    (iamOutcome infOutcome : AxiosOutcome) : HttpResponse × List Call :=
  let iamCall := Call.iam (iamRequestBody cfg.apiKey)
  match iamOutcome with
  | .success tokenData =>
    match jsGetThrow tokenData "access_token" with
    | .error m => (catchChat (.plain m), [iamCall])
    | .ok _token => invokeInference cfg userMessage infOutcome
  | .httpError st d => (catchChat (.withResponse st d), [iamCall])
  | .noResponse => (catchChat .withRequest, [iamCall])
  | .setupError m => (catchChat (.plain m), [iamCall])

/-- The Express route app.post for /api/chat in server.js, as a function of
the configuration, the parsed request body, and the outcomes of the two
outbound calls.  Express only routes POST requests here, so the method is
not a parameter.  Returns the response together with the outbound calls
performed. -/
def apiChat (cfg : Config) (body : JsVal) (iamOutcome infOutcome : AxiosOutcome) :
    HttpResponse × List Call :=
  match jsGetThrow body "message" with
  | .error m => (catchChat (.plain m), [])
  | .ok userMessage =>
    if truthy userMessage = false then
      ({ status := 400, body := msgEmptyBody }, [])
    else if truthy cfg.apiKey = false then
      ({ status := 500, body := apiKeyMissingBody }, [])
    else if truthy cfg.projectId = false then
      ({ status := 500, body := projectIdMissingBody }, [])
    else
      acquireAndInvoke cfg userMessage iamOutcome infOutcome

/-- The serverless handler of api/chat.js (and its CommonJS twin): method
check, truthiness check on the message, token exchange, inference call,
and the upstream body passed through verbatim with status 200; any thrown
error is caught into one generic 500.  There is no configuration check:
the API key is only ever interpolated into the IAM request body.  The two
serverless variants differ only in the scoring URL they call, which no
claim depends on. -/
def handler (method : String) (apiKey projectId : JsVal) (body : JsVal)
    (iamOutcome infOutcome : AxiosOutcome) : HttpResponse × List Call :=
  if method ≠ "POST" then
    ({ status := 405, body := methodNotAllowedBody }, [])
  else
    match jsGetThrow body "message" with
    | .error _ => ({ status := 500, body := internalErrorBody }, [])
    | .ok userMessage =>
      if truthy userMessage = false then
        ({ status := 400, body := msgEmptyBody }, [])
      else
        match iamOutcome with
        | .success tokenData =>
          match jsGetThrow tokenData "access_token" with
          | .error _ => ({ status := 500, body := internalErrorBody }, [.iam (iamRequestBody apiKey)])
          | .ok _token =>
            let calls := [Call.iam (iamRequestBody apiKey),
                          Call.inference (serverlessPayload projectId userMessage)]
            match infOutcome with
            | .success data => ({ status := 200, body := data }, calls)
            | _ => ({ status := 500, body := internalErrorBody }, calls)
        | _ => ({ status := 500, body := internalErrorBody }, [.iam (iamRequestBody apiKey)])

/-! ### Decidable shape check for the canonical envelope, and concrete
fixtures used by counterexamples and witnesses -/

/-- Whether a number is the literal 0. -/
def isNumZero : JsVal → Bool
  | .vnum q => decide (q = 0)
  | _ => false

/-- Decidable check that a JSON value has exactly the canonical envelope
shape: one choices key holding one element with index 0 and a message
object whose content is a string and whose role is assistant. -/
def isCanonicalEnvelope (v : JsVal) : Bool :=
  match v with
  | .vobj [(k1, .varr [.vobj [(k2, idx), (k3, .vobj [(k4, .vstr _), (k5, .vstr role)])]])] =>
    k1 = "choices" && k2 = "index" && isNumZero idx && k3 = "message" &&
      k4 = "content" && k5 = "role" && role = "assistant".toList
  | _ => false

/-- A request body carrying just a message field. -/
def msgBody (m : JsVal) : JsVal := .vobj [("message", m)]

/-- A configuration with both values present. -/
def okCfg : Config := { apiKey := .vstr "k".toList, projectId := .vstr "p".toList }

/-- A successful token exchange. -/
def tokOk : AxiosOutcome := .success (.vobj [("access_token", .vstr "t".toList)])

/-- A minimal successful watsonx result. -/
def resultsHi : JsVal := .vobj [("results", .varr [.vobj [("generated_text", .vstr "hi".toList)]])]

/-- The multi-line generated text of the spec example: Human colon X,
blank line, Assistant colon Y. -/
def echoResult : JsVal :=
  .vobj [("results", .varr [.vobj [("generated_text", .vstr "Human: X\n\nAssistant: Y".toList)]])]

/-- A result whose generated text is the empty string. -/
def emptyGenResult : JsVal :=
  .vobj [("results", .varr [.vobj [("generated_text", .vstr [])]])]

/-- The fallback string as the specification quotes it (without the leading
contraction of I am sorry). -/
def specFallback : List Char :=
  "I couldn".toList ++ [apoChar] ++ "t generate a response. Please try again.".toList

/-! ### Helper lemmas -/

/-- Whatever the envelope content, the shape check accepts the envelope the
Express route builds. -/
theorem isCanonicalEnvelope_mkEnvelope (c : List Char) :
    isCanonicalEnvelope (mkEnvelope c) = true := rfl

/-- Normalisation never returns the empty string: an empty extraction is
replaced by the fallback. -/
theorem normalizedContent_ok_ne_nil (data : JsVal) (c : List Char)
    (h : normalizedContent data = .ok c) : c ≠ [] := by
  unfold normalizedContent at h
  cases he : extractResponseText data with
  | error e => rw [he] at h; cases h
  | ok txt =>
    rw [he] at h
    cases h
    by_cases hx : txt = []
    · rw [if_pos hx]; decide
    · rw [if_neg hx]; exact hx

/-- Any 200 produced by the inference stage of the Express route carries
exactly the canonical envelope, with non-empty content. -/
theorem invokeInference_200 (cfg : Config) (m : JsVal) (o : AxiosOutcome)
    (hwf : AxiosWf o) (h : (invokeInference cfg m o).1.status = 200) :
    ∃ s, (invokeInference cfg m o).1.body = mkEnvelope s ∧ s ≠ [] := by
  cases o with
  | success data =>
    simp only [invokeInference] at h ⊢
    cases hn : normalizedContent data with
    | ok content =>
      exact ⟨content, rfl, normalizedContent_ok_ne_nil data content hn⟩
    | error e =>
      rw [hn] at h
      simp [catchChat] at h
  | httpError st d =>
    simp only [invokeInference] at h
    simp [catchChat] at h
    have hwf' : st < 200 ∨ 300 ≤ st := hwf
    omega
  | noResponse =>
    simp only [invokeInference] at h
    simp [catchChat] at h
  | setupError e =>
    simp only [invokeInference] at h
    simp [catchChat] at h

/-- Any 200 produced by the whole Express route carries exactly the
canonical envelope, with non-empty content. -/
theorem apiChat_200_envelope (cfg : Config) (body : JsVal) (o1 o2 : AxiosOutcome)
    (h1 : AxiosWf o1) (h2 : AxiosWf o2)
    (h : (apiChat cfg body o1 o2).1.status = 200) :
    ∃ s, (apiChat cfg body o1 o2).1.body = mkEnvelope s ∧ s ≠ [] := by
  cases hm : jsGetThrow body "message" with
  | error e =>
    simp only [apiChat, hm] at h
    simp [catchChat] at h
  | ok m =>
    simp only [apiChat, hm] at h ⊢
    by_cases ht : truthy m = false
    · rw [if_pos ht] at h; simp at h
    · rw [if_neg ht] at h ⊢
      by_cases hk : truthy cfg.apiKey = false
      · rw [if_pos hk] at h; simp at h
      · rw [if_neg hk] at h ⊢
        by_cases hp : truthy cfg.projectId = false
        · rw [if_pos hp] at h; simp at h
        · rw [if_neg hp] at h ⊢
          cases o1 with
          | success tokenData =>
            simp only [acquireAndInvoke] at h ⊢
            cases htok : jsGetThrow tokenData "access_token" with
            | error e => rw [htok] at h; simp [catchChat] at h
            | ok tok => rw [htok] at h; exact invokeInference_200 cfg m o2 h2 h
          | httpError st d =>
            simp only [acquireAndInvoke] at h
            simp [catchChat] at h
            have h1' : st < 200 ∨ 300 ≤ st := h1
            omega
          | noResponse =>
            simp only [acquireAndInvoke] at h
            simp [catchChat] at h
          | setupError e =>
            simp only [acquireAndInvoke] at h
            simp [catchChat] at h

/-! ### Claims -/

/-- C1 (counterexample): the serverless relay handler of api/chat.js, on a
run that completes successfully (POST, non-empty message, token acquired,
2xx upstream inference response of the results shape), returns HTTP 200
whose body is the upstream body verbatim — not the canonical envelope. -/
theorem c1_counterexample :
    (handler "POST" (.vstr "k".toList) (.vstr "p".toList) (msgBody (.vstr "hi".toList))
        tokOk (.success resultsHi)).1.status = 200 ∧
    isCanonicalEnvelope (handler "POST" (.vstr "k".toList) (.vstr "p".toList)
        (msgBody (.vstr "hi".toList)) tokOk (.success resultsHi)).1.body = false :=
  ⟨rfl, rfl⟩

/-- C1 (amended): every HTTP 200 response produced by the Express
/api/chat route has exactly the canonical envelope shape; the serverless
variants return the upstream body unchanged instead. -/
theorem c1_express_200_canonical (cfg : Config) (body : JsVal)
    (o1 o2 : AxiosOutcome) (h1 : AxiosWf o1) (h2 : AxiosWf o2)
    (h : (apiChat cfg body o1 o2).1.status = 200) :
    ∃ s, (apiChat cfg body o1 o2).1.body = mkEnvelope s := by
  obtain ⟨s, hs, _⟩ := apiChat_200_envelope cfg body o1 o2 h1 h2 h
  exact ⟨s, hs⟩

/-- C1 (witness): a concrete successful Express run yields the canonical
envelope. -/
theorem c1_witness :
    ∃ s, (apiChat okCfg (msgBody (.vstr "hi".toList)) tokOk (.success resultsHi)).1.body = mkEnvelope s :=
  c1_express_200_canonical okCfg (msgBody (.vstr "hi".toList)) tokOk (.success resultsHi)
    trivial trivial rfl

/-- C2 (counterexample): on the multi-line example the Express normaliser
returns the whole trimmed text, not Y — the replace pattern cannot cross
the line terminators because the regex has no dot-all flag — and the
fallback for the unrecognised empty shape is the longer string beginning
with the contraction of I am sorry, not the string the claim quotes. -/
theorem c2_counterexample :
    normalizedContent echoResult = .ok ("Human: X\n\nAssistant: Y".toList) ∧
    "Human: X\n\nAssistant: Y".toList ≠ "Y".toList ∧
    normalizedContent (.vobj []) = .ok chatFallback ∧
    chatFallback ≠ specFallback :=
  ⟨rfl, by decide, rfl, by decide⟩

/-- C2 (amended): the normaliser strips the echoed prompt only when the
Assistant marker lies on the first line; on the multi-line shape the full
trimmed text is returned unchanged; an unrecognised shape yields the fixed
fallback string of server.js without error. -/
theorem c2_normalizer_behaviour :
    normalizedContent echoResult = .ok ("Human: X\n\nAssistant: Y".toList) ∧
    normalizedContent (.vobj [("results", .varr [.vobj [("generated_text",
        .vstr "Human: X Assistant: Y".toList)]])]) = .ok ("Y".toList) ∧
    normalizedContent (.vobj []) = .ok chatFallback :=
  ⟨rfl, rfl, rfl⟩

/-- C3 (counterexample): a POST whose message is a single space is truthy
in JavaScript, passes validation, and with working upstream mocks yields
HTTP 200 after two outbound calls — not HTTP 400. -/
theorem c3_counterexample :
    (apiChat okCfg (msgBody (.vstr " ".toList)) tokOk (.success resultsHi)).1.status = 200 ∧
    (apiChat okCfg (msgBody (.vstr " ".toList)) tokOk (.success resultsHi)).2.length = 2 :=
  ⟨rfl, rfl⟩

/-- C3 (amended): a message that is the empty string (or any other falsy
value) is rejected with HTTP 400 by both relay variants, independent of
the configuration and before any outbound call; a whitespace-only message
is truthy and passes validation. -/
theorem c3_falsy_message_400 (cfg : Config) (k p body m : JsVal)
    (o1 o2 : AxiosOutcome)
    (hm : jsGetThrow body "message" = .ok m) (ht : truthy m = false) :
    apiChat cfg body o1 o2 = ({ status := 400, body := msgEmptyBody }, []) ∧
    handler "POST" k p body o1 o2 = ({ status := 400, body := msgEmptyBody }, []) := by
  constructor
  · simp [apiChat, hm, ht]
  · simp +decide [handler, hm, ht]

/-- C3 (witness): the empty-string message is rejected 400 by both
variants with no outbound calls, even with working upstream mocks. -/
theorem c3_witness :
    apiChat okCfg (msgBody (.vstr [])) tokOk (.success resultsHi) =
      ({ status := 400, body := msgEmptyBody }, []) ∧
    handler "POST" (.vstr "k".toList) (.vstr "p".toList) (msgBody (.vstr [])) tokOk (.success resultsHi) =
      ({ status := 400, body := msgEmptyBody }, []) :=
  c3_falsy_message_400 okCfg (.vstr "k".toList) (.vstr "p".toList) (msgBody (.vstr []))
    (.vstr []) tokOk (.success resultsHi) rfl rfl

/-- C4 (counterexample): the serverless relay handler of api/chat.js
answers a mocked upstream 404 with the generic 500 internal-error body —
neither the upstream status nor any diagnostic detail is propagated —
contradicting the claimed taxonomy on the cited chat.js catch block. -/
theorem c4_counterexample :
    (handler "POST" (.vstr "k".toList) (.vstr "p".toList) (msgBody (.vstr "hi".toList))
        tokOk (.httpError 404 (.vstr "not found".toList))).1.status = 500 ∧
    (handler "POST" (.vstr "k".toList) (.vstr "p".toList) (msgBody (.vstr "hi".toList))
        tokOk (.httpError 404 (.vstr "not found".toList))).1.status ≠ 404 ∧
    (handler "POST" (.vstr "k".toList) (.vstr "p".toList) (msgBody (.vstr "hi".toList))
        tokOk (.httpError 404 (.vstr "not found".toList))).1.body = internalErrorBody :=
  ⟨rfl, by decide, rfl⟩

/-- C4 (amended): with a valid message, full configuration and a
successful token exchange, the Express route converts each failure mode of
the inference call to exactly one JSON error response — an upstream
non-2xx answer propagates the upstream status with the upstream diagnostic
attached as details, a sent-but-unanswered request maps to 500 with the
connectivity-hint body, and a setup failure maps to 500 with the setup
error detail — while the serverless handler maps every one of those
failure modes to the single generic 500 internal-error body. -/
theorem c4_error_taxonomy (cfg : Config) (body m tokenData tok k p : JsVal)
    (hm : jsGetThrow body "message" = .ok m) (ht : truthy m = true)
    (hk : truthy cfg.apiKey = true) (hp : truthy cfg.projectId = true)
    (htok : jsGetThrow tokenData "access_token" = .ok tok) :
    (∀ st d, apiChat cfg body (.success tokenData) (.httpError st d) =
       ({ status := st, body := upstreamErrorBody st d },
        [.iam (iamRequestBody cfg.apiKey), .inference (watsonxPayload cfg.projectId m)])) ∧
    apiChat cfg body (.success tokenData) .noResponse =
       ({ status := 500, body := connectivityBody },
        [.iam (iamRequestBody cfg.apiKey), .inference (watsonxPayload cfg.projectId m)]) ∧
    (∀ e, apiChat cfg body (.success tokenData) (.setupError e) =
       ({ status := 500, body := setupErrorBody e },
        [.iam (iamRequestBody cfg.apiKey), .inference (watsonxPayload cfg.projectId m)])) ∧
    (∀ st d, handler "POST" k p body (.success tokenData) (.httpError st d) =
       ({ status := 500, body := internalErrorBody },
        [.iam (iamRequestBody k), .inference (serverlessPayload p m)])) ∧
    handler "POST" k p body (.success tokenData) .noResponse =
       ({ status := 500, body := internalErrorBody },
        [.iam (iamRequestBody k), .inference (serverlessPayload p m)]) ∧
    (∀ e, handler "POST" k p body (.success tokenData) (.setupError e) =
       ({ status := 500, body := internalErrorBody },
        [.iam (iamRequestBody k), .inference (serverlessPayload p m)])) := by
  refine ⟨fun st d => ?_, ?_, fun e => ?_, fun st d => ?_, ?_, fun e => ?_⟩ <;>
    first
      | simp [apiChat, acquireAndInvoke, invokeInference, catchChat, hm, ht, hk, hp, htok]
      | simp +decide [handler, hm, ht, htok]

/-- C4 (witness): the same mocked upstream 404 propagates as a 404 with
the upstream data as details through the Express route, but surfaces as
the generic 500 internal-error body through the serverless handler, both
after both outbound calls. -/
theorem c4_witness :
    apiChat okCfg (msgBody (.vstr "hi".toList)) tokOk (.httpError 404 .vnull) =
      ({ status := 404, body := upstreamErrorBody 404 .vnull },
       [.iam (iamRequestBody okCfg.apiKey), .inference (watsonxPayload okCfg.projectId (.vstr "hi".toList))]) ∧
    handler "POST" (.vstr "k".toList) (.vstr "p".toList) (msgBody (.vstr "hi".toList)) tokOk (.httpError 404 .vnull) =
      ({ status := 500, body := internalErrorBody },
       [.iam (iamRequestBody (.vstr "k".toList)), .inference (serverlessPayload (.vstr "p".toList) (.vstr "hi".toList))]) :=
  ⟨(c4_error_taxonomy okCfg (msgBody (.vstr "hi".toList)) (.vstr "hi".toList)
      (.vobj [("access_token", .vstr "t".toList)]) (.vstr "t".toList)
      (.vstr "k".toList) (.vstr "p".toList) rfl rfl rfl rfl rfl).1 404 .vnull,
   (c4_error_taxonomy okCfg (msgBody (.vstr "hi".toList)) (.vstr "hi".toList)
      (.vobj [("access_token", .vstr "t".toList)]) (.vstr "t".toList)
      (.vstr "k".toList) (.vstr "p".toList) rfl rfl rfl rfl rfl).2.2.2.1 404 .vnull⟩

/-- C5 (counterexample): a mocked identity-exchange failure with status 401
makes the Express route respond 401 — the upstream status, not 500 — while
the inference call is indeed never performed. -/
theorem c5_counterexample :
    (apiChat okCfg (msgBody (.vstr "hi".toList)) (.httpError 401 (.vobj [])) (.success resultsHi)).1.status = 401 ∧
    (apiChat okCfg (msgBody (.vstr "hi".toList)) (.httpError 401 (.vobj [])) (.success resultsHi)).1.status ≠ 500 ∧
    (apiChat okCfg (msgBody (.vstr "hi".toList)) (.httpError 401 (.vobj [])) (.success resultsHi)).2 =
      [.iam (iamRequestBody okCfg.apiKey)] :=
  ⟨rfl, by decide, rfl⟩

/-- C5 (amended): when the identity exchange fails with an upstream
response the Express route responds with the identity status itself and
the upstream diagnostic; when the identity endpoint is unreachable it
responds 500 with the connectivity body; when the exchange could not be
set up it responds 500 with the setup detail; in every case the inference
call is never performed. -/
theorem c5_identity_failure (cfg : Config) (body m : JsVal) (o2 : AxiosOutcome)
    (hm : jsGetThrow body "message" = .ok m) (ht : truthy m = true)
    (hk : truthy cfg.apiKey = true) (hp : truthy cfg.projectId = true) :
    (∀ st d, apiChat cfg body (.httpError st d) o2 =
        ({ status := st, body := upstreamErrorBody st d }, [.iam (iamRequestBody cfg.apiKey)])) ∧
    apiChat cfg body .noResponse o2 =
        ({ status := 500, body := connectivityBody }, [.iam (iamRequestBody cfg.apiKey)]) ∧
    (∀ e, apiChat cfg body (.setupError e) o2 =
        ({ status := 500, body := setupErrorBody e }, [.iam (iamRequestBody cfg.apiKey)])) := by
  refine ⟨fun st d => ?_, ?_, fun e => ?_⟩ <;>
    simp [apiChat, acquireAndInvoke, catchChat, hm, ht, hk, hp]

/-- C5 (witness): a concrete identity 401 yields a 401 response and only
the one identity call. -/
theorem c5_witness :
    apiChat okCfg (msgBody (.vstr "hi".toList)) (.httpError 401 .vnull) tokOk =
      ({ status := 401, body := upstreamErrorBody 401 .vnull }, [.iam (iamRequestBody okCfg.apiKey)]) :=
  (c5_identity_failure okCfg (msgBody (.vstr "hi".toList)) (.vstr "hi".toList) tokOk
    rfl rfl rfl rfl).1 401 .vnull

/-- C6 (counterexample): the serverless handler with an absent API key and
a valid message does not respond 500 with a configuration error — it
proceeds, performs both outbound calls, and returns 200 under working
mocks. -/
theorem c6_counterexample :
    (handler "POST" .vundefined (.vstr "p".toList) (msgBody (.vstr "hi".toList)) tokOk (.success resultsHi)).1.status = 200 ∧
    (handler "POST" .vundefined (.vstr "p".toList) (msgBody (.vstr "hi".toList)) tokOk (.success resultsHi)).2.length = 2 :=
  ⟨rfl, rfl⟩

/-- C6 (amended): the Express route rejects an absent API key or project id
with HTTP 500 and the configuration-error body before any outbound call;
the serverless handler performs no configuration check and proceeds
straight to the token exchange, interpolating the absent key into the
grant body as the string undefined. -/
theorem c6_configuration (cfg : Config) (body m p : JsVal) (o1 o2 : AxiosOutcome)
    (hm : jsGetThrow body "message" = .ok m) (ht : truthy m = true) :
    (truthy cfg.apiKey = false →
       apiChat cfg body o1 o2 = ({ status := 500, body := apiKeyMissingBody }, [])) ∧
    (truthy cfg.apiKey = true → truthy cfg.projectId = false →
       apiChat cfg body o1 o2 = ({ status := 500, body := projectIdMissingBody }, [])) ∧
    (handler "POST" .vundefined p body o1 o2).2.head? =
       some (.iam ("grant_type=urn:ibm:params:oauth:grant-type:apikey&apikey=undefined".toList)) := by
  refine ⟨fun hk => ?_, fun hk hp => ?_, ?_⟩
  · simp [apiChat, hm, ht, hk]
  · simp [apiChat, hm, ht, hk, hp]
  · cases o1 with
    | success tokenData =>
      cases htok : jsGetThrow tokenData "access_token" with
      | error e => simp +decide [handler, hm, ht, htok, iamRequestBody, jsToString]
      | ok tok => cases o2 <;> simp +decide [handler, hm, ht, htok, iamRequestBody, jsToString]
    | httpError st d => simp +decide [handler, hm, ht, iamRequestBody, jsToString]
    | noResponse => simp +decide [handler, hm, ht, iamRequestBody, jsToString]
    | setupError e => simp +decide [handler, hm, ht, iamRequestBody, jsToString]

/-- C6 (witness): with both configuration values absent the Express route
responds 500 naming the API key before any call; with only the project id
absent it responds 500 naming the project id; and the serverless handler
with an absent key still opens with the token exchange. -/
theorem c6_witness :
    apiChat { apiKey := .vundefined, projectId := .vundefined } (msgBody (.vstr "hi".toList)) tokOk (.success resultsHi) =
      ({ status := 500, body := apiKeyMissingBody }, []) ∧
    (handler "POST" .vundefined (.vstr "p".toList) (msgBody (.vstr "hi".toList)) tokOk (.success resultsHi)).2.head? =
      some (.iam ("grant_type=urn:ibm:params:oauth:grant-type:apikey&apikey=undefined".toList)) :=
  ⟨(c6_configuration { apiKey := .vundefined, projectId := .vundefined } (msgBody (.vstr "hi".toList))
      (.vstr "hi".toList) (.vstr "p".toList) tokOk (.success resultsHi) rfl rfl).1 rfl,
   (c6_configuration { apiKey := .vundefined, projectId := .vundefined } (msgBody (.vstr "hi".toList))
      (.vstr "hi".toList) (.vstr "p".toList) tokOk (.success resultsHi) rfl rfl).2.2⟩

/-- C7: a request to the serverless relay handler whose method is not POST
yields HTTP 405 with the Method Not Allowed body, and no outbound call is
performed: neither the token exchange nor the inference call is attempted. -/
theorem c7_non_post_405 (method : String) (k p body : JsVal) (o1 o2 : AxiosOutcome)
    (hmethod : method ≠ "POST") :
    handler method k p body o1 o2 = ({ status := 405, body := methodNotAllowedBody }, []) := by
  simp [handler, hmethod]

/-- C7 (witness): a GET request yields 405 with no outbound calls even
with working upstream mocks. -/
theorem c7_witness :
    handler "GET" .vundefined .vundefined (msgBody (.vstr "hi".toList)) tokOk (.success resultsHi) =
      ({ status := 405, body := methodNotAllowedBody }, []) :=
  c7_non_post_405 "GET" .vundefined .vundefined (msgBody (.vstr "hi".toList)) tokOk (.success resultsHi)
    (by decide)

/-- C8: the Express route is a deterministic function of its inputs: two
request bodies carrying the same message value, processed against the same
token-exchange and inference outcomes, produce identical responses and
identical call traces. -/
theorem c8_deterministic (cfg : Config) (b1 b2 : JsVal) (o1 o2 : AxiosOutcome)
    (hmsg : jsGetThrow b1 "message" = jsGetThrow b2 "message") :
    apiChat cfg b1 o1 o2 = apiChat cfg b2 o1 o2 := by
  unfold apiChat
  rw [hmsg]

/-- C8 (witness): two bodies with the same message (one carrying an extra
field) yield structurally identical envelopes. -/
theorem c8_witness :
    apiChat okCfg (.vobj [("message", .vstr "hi".toList), ("extra", .vnum 1)]) tokOk (.success resultsHi) =
    apiChat okCfg (msgBody (.vstr "hi".toList)) tokOk (.success resultsHi) :=
  c8_deterministic okCfg (.vobj [("message", .vstr "hi".toList), ("extra", .vnum 1)])
    (msgBody (.vstr "hi".toList)) tokOk (.success resultsHi) rfl

/-- C9: every 200 response of the Express /api/chat route carries the
canonical envelope with a non-empty string content; and an upstream result
whose generated text is the empty string normalises to the fixed fallback
string. -/
theorem c9_success_content_nonempty :
    (∀ (cfg : Config) (body : JsVal) (o1 o2 : AxiosOutcome),
       AxiosWf o1 → AxiosWf o2 →
       (apiChat cfg body o1 o2).1.status = 200 →
       ∃ s, (apiChat cfg body o1 o2).1.body = mkEnvelope s ∧ s ≠ []) ∧
    normalizedContent emptyGenResult = .ok chatFallback :=
  ⟨fun cfg body o1 o2 h1 h2 h => apiChat_200_envelope cfg body o1 o2 h1 h2 h, rfl⟩

/-- C9 (witness): a concrete successful run yields an envelope with
non-empty content. -/
theorem c9_witness :
    ∃ s, (apiChat okCfg (msgBody (.vstr "hi".toList)) tokOk (.success resultsHi)).1.body = mkEnvelope s ∧ s ≠ [] :=
  c9_success_content_nonempty.1 okCfg (msgBody (.vstr "hi".toList)) tokOk (.success resultsHi)
    trivial trivial rfl

/-- C10: inbound message validation is JavaScript truthiness, not a
string-type check: any falsy message value is rejected 400 by both relay
variants before any outbound call, while any truthy message value — of
whatever type — passes validation and, in the serverless payload, is
embedded unchanged as the content of messages[0]. -/
theorem c10_truthiness (cfg : Config) (k p body m : JsVal) (o1 o2 : AxiosOutcome)
    (hm : jsGetThrow body "message" = .ok m) :
    (truthy m = false →
       apiChat cfg body o1 o2 = ({ status := 400, body := msgEmptyBody }, []) ∧
       handler "POST" k p body o1 o2 = ({ status := 400, body := msgEmptyBody }, [])) ∧
    (truthy m = true → ∀ tokenData tok infData : JsVal,
       jsGetThrow tokenData "access_token" = .ok tok →
       handler "POST" k p body (.success tokenData) (.success infData) =
         ({ status := 200, body := infData },
          [.iam (iamRequestBody k), .inference (serverlessPayload p m)])) := by
  refine ⟨fun ht => ⟨?_, ?_⟩, fun ht tokenData tok infData htok => ?_⟩
  · simp [apiChat, hm, ht]
  · simp +decide [handler, hm, ht]
  · simp +decide [handler, hm, ht, htok]

/-- C10 (witness): the falsy number 0 is rejected 400 by both variants;
the truthy non-string empty-array message passes validation and appears
unchanged in the serverless inference payload. -/
theorem c10_witness :
    (apiChat okCfg (msgBody (.vnum 0)) tokOk (.success resultsHi) =
       ({ status := 400, body := msgEmptyBody }, []) ∧
     handler "POST" (.vstr "k".toList) (.vstr "p".toList) (msgBody (.vnum 0)) tokOk (.success resultsHi) =
       ({ status := 400, body := msgEmptyBody }, [])) ∧
    handler "POST" (.vstr "k".toList) (.vstr "p".toList) (msgBody (.varr []))
        (.success (.vobj [("access_token", .vstr "t".toList)])) (.success resultsHi) =
      ({ status := 200, body := resultsHi },
       [.iam (iamRequestBody (.vstr "k".toList)), .inference (serverlessPayload (.vstr "p".toList) (.varr []))]) :=
  ⟨(c10_truthiness okCfg (.vstr "k".toList) (.vstr "p".toList) (msgBody (.vnum 0)) (.vnum 0)
      tokOk (.success resultsHi) rfl).1 rfl,
   (c10_truthiness okCfg (.vstr "k".toList) (.vstr "p".toList) (msgBody (.varr [])) (.varr [])
      tokOk (.success resultsHi) rfl).2 rfl
      (.vobj [("access_token", .vstr "t".toList)]) (.vstr "t".toList) resultsHi rfl⟩

end LearnMate
